import Mathlib

/-!
# AutomationHub — verification of the specification against the client source

Shallow embedding of the AutomationHub frontend (a React/TypeScript ticketing
client).  Pure computations (filtering, sorting, statistics, timeline
reconstruction, error decoding, tree traversal) are translated directly from
the source into executable Lean definitions; the stateful interaction handlers
are modelled as explicit state-passing functions on the ticket record.  JS
numbers that hold epoch-millisecond timestamps are modelled as `Int` (they are
integral in this program); JS floating-point division in the one derived
statistic is modelled exactly over `ℚ`.  JS `||`/`??`/truthiness on these
values is translated explicitly (`0`/`""`/`null` falsy).
-/

namespace AutomationHub

/-! ## Data model (src/types.ts) -/

/-- `RequestStatus` enum from src/types.ts. -/
inductive RequestStatus where
  | PENDING
  | IN_PROGRESS
  | COMPLETED
  | REJECTED
  | RETURNED
deriving DecidableEq, Repr

/-- `Priority` enum from src/types.ts. -/
inductive Priority where
  | LOW
  | MEDIUM
  | HIGH
  | CRITICAL
deriving DecidableEq, Repr

/-- The string value carried by each `Priority` enum member. -/
def priorityStr : Priority → String
  | .LOW => "LOW"
  | .MEDIUM => "MEDIUM"
  | .HIGH => "HIGH"
  | .CRITICAL => "CRITICAL"

/-- `eventType` of a `SubmissionEvent` (src/types.ts). -/
inductive EventType where
  | SUBMISSION
  | RESUBMISSION
deriving DecidableEq, Repr

/-- `SubmissionEvent` record from src/types.ts. -/
structure SubmissionEvent where
  id : Int
  requestId : Int
  eventType : EventType
  createdAt : Int
  addedFiles : Nat
deriving DecidableEq, Repr

/-- `Attachment` record from src/types.ts (`id` is optional, server-assigned). -/
structure Attachment where
  id : Option Int
  name : String
  atype : String
  data : String
deriving DecidableEq, Repr

/-- `AIAnalysis` record from src/types.ts. -/
structure AIAnalysis where
  complexityScore : Int
  suggestedNamespaces : List String
  implementationStrategy : String
  pseudoCode : String
deriving DecidableEq, Repr

/-- `AutomationRequest` (ticket) from src/types.ts, restricted to the fields the
verified computations read.  `id` is modelled as `Int` (`0` plays the role of a
JS-falsy id).  The optional `submissionCount` is `Option Nat`; the optional
`submissionEvents`/`resultFiles` lists are modelled as plain lists (the client
reads them only through `|| []` / `?.length ?? 0`, which give the same values
for `undefined` as for `[]`). -/
structure Ticket where
  id : Int
  title : String
  requesterName : String
  projectName : String
  description : String
  priority : Priority
  status : RequestStatus
  createdAt : Int
  updatedAt : Int
  resultFiles : List Attachment
  aiAnalysis : Option AIAnalysis
  submissionCount : Option Nat
  submissionEvents : List SubmissionEvent
deriving DecidableEq, Repr

/-! ## Developer dashboard statistics (src/components/DeveloperPortal.tsx) -/

/-- `completedForStats` (DeveloperPortal.tsx line 49): the COMPLETED tickets. -/
def completedForStats (requests : List Ticket) : List Ticket :=
  requests.filter (fun r => r.status = RequestStatus.COMPLETED)

/-- `avgTurnaroundDays` (DeveloperPortal.tsx lines 50–52):
`completedForStats.length ? (Σ max(0, updatedAt - createdAt)) / length / 86400000 : 0`.
JS float division is modelled exactly in `ℚ`. -/
def avgTurnaroundDays (requests : List Ticket) : ℚ :=
  let completed := completedForStats requests
  if completed.length = 0 then 0
  else
    ((completed.map (fun r => ((max 0 (r.updatedAt - r.createdAt) : Int) : ℚ))).sum
      / (completed.length : ℚ)) / (1000 * 60 * 60 * 24)

/-! ## Derived submission counts
(src/components/RequestDetail.tsx line 31–32, src/components/DeveloperPortal.tsx line 77) -/

/-- The ascending-by-`createdAt` ordering used at RequestDetail.tsx line 31. -/
def evLE (a b : SubmissionEvent) : Prop := a.createdAt ≤ b.createdAt

instance : DecidableRel evLE := fun a b => inferInstanceAs (Decidable (a.createdAt ≤ b.createdAt))

instance : IsTotal SubmissionEvent evLE := ⟨fun a b => Int.le_total a.createdAt b.createdAt⟩

instance : IsTrans SubmissionEvent evLE := ⟨fun _ _ _ h h' => le_trans h h'⟩

/-- RequestDetail.tsx line 31: `[...(localReq.submissionEvents || [])].sort((a, b) => a.createdAt - b.createdAt)`.
JS `Array.prototype.sort` is stable; it is modelled by the stable `List.insertionSort`. -/
def submissionEventsSorted (req : Ticket) : List SubmissionEvent :=
  List.insertionSort evLE req.submissionEvents

/-- RequestDetail.tsx line 32:
`Math.max(localReq.submissionCount ?? 0, submissionEvents.length)`. -/
def detailSubmissionCount (req : Ticket) : Nat :=
  max (req.submissionCount.getD 0) (submissionEventsSorted req).length

/-- DeveloperPortal.tsx line 77 (`RequestCard`):
`req.submissionCount ?? req.submissionEvents?.length ?? 0`. -/
def cardSubmissionCount (req : Ticket) : Nat :=
  req.submissionCount.getD req.submissionEvents.length

/-! ## Client-initiated update handlers (src/components/RequestDetail.tsx) -/

/-- `handleStatusChange` (RequestDetail.tsx lines 90–95):
`{ ...localReq, status, updatedAt: Date.now() }`, saved and set locally. -/
def handleStatusChange (req : Ticket) (status : RequestStatus) (now : Int) : Ticket :=
  { req with status := status, updatedAt := now }

/-- `handleReturnToDeveloper` (RequestDetail.tsx lines 217–227):
`{ ...localReq, status: RequestStatus.RETURNED, updatedAt: Date.now() }`. -/
def handleReturnToDeveloper (req : Ticket) (now : Int) : Ticket :=
  { req with status := RequestStatus.RETURNED, updatedAt := now }

/-! ## Developer dashboard filtering and sorting (src/components/DeveloperPortal.tsx lines 24–46) -/

/-- Model of JS `String.prototype.toLowerCase` (characterwise lowering). -/
def lowerStr (s : String) : String :=
  String.mk (s.toList.map Char.toLower)

/-- Helper for `String.prototype.includes`: does the needle occur at some
position of the haystack? -/
def includesAux (needle : List Char) : List Char → Bool
  | [] => needle.isEmpty
  | c :: t => needle.isPrefixOf (c :: t) || includesAux needle t

/-- Model of JS `hay.includes(needle)`. -/
def jsIncludes (hay needle : String) : Bool :=
  includesAux needle.toList hay.toList

/-- DeveloperPortal.tsx lines 25–28: the free-text filter
`r.title.toLowerCase().includes(search.toLowerCase()) || r.requesterName.toLowerCase().includes(search.toLowerCase())`. -/
def textMatches (search : String) (r : Ticket) : Bool :=
  jsIncludes (lowerStr r.title) (lowerStr search)
    || jsIncludes (lowerStr r.requesterName) (lowerStr search)

/-- The `sortDate` state: `'DESC' | 'ASC'`. -/
inductive SortDir where
  | DESC
  | ASC
deriving DecidableEq, Repr

/-- The ordering realised by the comparator at DeveloperPortal.tsx lines 39–43
(`b.createdAt - a.createdAt` for DESC, `a.createdAt - b.createdAt` for ASC). -/
def sortRel : SortDir → Ticket → Ticket → Prop
  | .DESC, a, b => b.createdAt ≤ a.createdAt
  | .ASC, a, b => a.createdAt ≤ b.createdAt

instance (d : SortDir) : DecidableRel (sortRel d) := fun a b => by
  cases d <;> · simp only [sortRel]; infer_instance

instance (d : SortDir) : IsTotal Ticket (sortRel d) :=
  ⟨fun a b => by cases d <;> · simp only [sortRel]; omega⟩

instance (d : SortDir) : IsTrans Ticket (sortRel d) :=
  ⟨fun a b c h h' => by cases d <;> · simp only [sortRel] at *; omega⟩

/-- DeveloperPortal.tsx lines 24–37: the filter pipeline before sorting
(text search, then priority filter unless `'ALL'`, then project filter unless
`'ALL'`). -/
def filteredUnsorted (search filterPriority filterProject : String)
    (requests : List Ticket) : List Ticket :=
  let result := requests.filter (textMatches search)
  let result := if filterPriority = "ALL" then result
    else result.filter (fun r => priorityStr r.priority == filterPriority)
  if filterProject = "ALL" then result
    else result.filter (fun r => r.projectName == filterProject)

/-- `filteredRequests` (DeveloperPortal.tsx lines 24–46): the filter pipeline
followed by the (stable) sort by `createdAt`. -/
def filteredRequests (search filterPriority filterProject : String) (dir : SortDir)
    (requests : List Ticket) : List Ticket :=
  List.insertionSort (sortRel dir)
    (filteredUnsorted search filterPriority filterProject requests)

/-! ## Normalized submission events and timeline
(src/components/RequestDetail.tsx lines 33–56 and 261–317) -/

/-- JS `a || b` on numbers (`0` is falsy). -/
def jsOr (a b : Int) : Int := if a ≠ 0 then a else b

/-- `tsBase` (RequestDetail.tsx line 35): `localReq.updatedAt || localReq.createdAt || Date.now()`. -/
def tsBase (req : Ticket) (now : Int) : Int :=
  jsOr req.updatedAt (jsOr req.createdAt now)

/-- The fabricated events of RequestDetail.tsx lines 36–54: one SUBMISSION at
`tsBase` carrying `resultFiles.length`, then for `i = 1 .. submissionCount-1` a
RESUBMISSION at `tsBase + i` carrying `0`. -/
def syntheticEvents (req : Ticket) (resultFiles : List Attachment) (now : Int) :
    List SubmissionEvent :=
  let base := tsBase req now
  ⟨-1, req.id, EventType.SUBMISSION, base, resultFiles.length⟩ ::
    (List.range (detailSubmissionCount req - 1)).map (fun (j : Nat) =>
      ⟨-1 - ((j : Int) + 1), req.id, EventType.RESUBMISSION, base + ((j : Int) + 1), 0⟩)

/-- `normalizedEvents` (RequestDetail.tsx lines 33–56): the sorted stored events,
except that when there are none but `submissionCount > 0` the synthetic events
are fabricated for display. -/
def normalizedEvents (req : Ticket) (resultFiles : List Attachment) (now : Int) :
    List SubmissionEvent :=
  if (submissionEventsSorted req).length = 0 ∧ 0 < detailSubmissionCount req then
    syntheticEvents req resultFiles now
  else
    submissionEventsSorted req

/-- One entry of the reconstructed timeline (RequestDetail.tsx line 262). -/
structure TimelineItem where
  title : String
  timestamp : Int
  color : String
  detail : String
  order : Nat
deriving DecidableEq, Repr

/-- The creation entry pushed at RequestDetail.tsx lines 263–269. -/
def creationItem (req : Ticket) : TimelineItem :=
  ⟨"Request Submitted", req.createdAt, "border-green-500",
    "Filed by " ++ req.requesterName, 0⟩

/-- `${ev.addedFiles} file${ev.addedFiles === 1 ? '' : 's'} stacked`. -/
def fileCountText (n : Nat) : String :=
  toString n ++ " file" ++ (if n = 1 then "" else "s") ++ " stacked"

/-- The submission entries pushed at RequestDetail.tsx lines 270–281, carrying
the running index (`order = idx + 1`) and the resubmission counter. -/
def mkEventItems : List SubmissionEvent → Nat → Nat → List TimelineItem
  | [], _, _ => []
  | ev :: rest, idx, resubs =>
    if ev.eventType = EventType.RESUBMISSION then
      ⟨"Resubmission #" ++ toString (resubs + 1), ev.createdAt, "border-orange-500",
        fileCountText ev.addedFiles, idx + 1⟩ :: mkEventItems rest (idx + 1) (resubs + 1)
    else
      ⟨"Files Submitted", ev.createdAt, "border-blue-500",
        fileCountText ev.addedFiles, idx + 1⟩ :: mkEventItems rest (idx + 1) resubs

/-- The synthetic current-status entry of RequestDetail.tsx lines 282–312; every
member of the `RequestStatus` enum yields a non-empty `statusTitle`, so the
entry (with `order = 999`) is always pushed. -/
def statusItem (req : Ticket) : TimelineItem :=
  let statusTs := jsOr req.updatedAt req.createdAt
  match req.status with
  | .COMPLETED => ⟨"Completed", statusTs, "border-emerald-500", "Marked as completed", 999⟩
  | .RETURNED => ⟨"Returned to Developer", statusTs, "border-red-500",
      "Requester returned the delivery", 999⟩
  | .IN_PROGRESS => ⟨"In Progress", statusTs, "border-blue-400", "Status updated", 999⟩
  | .PENDING => ⟨"Pending", statusTs, "border-yellow-400", "Status updated", 999⟩
  | .REJECTED => ⟨"Rejected", statusTs, "border-red-500", "Status updated", 999⟩

/-- The ordering realised by the timeline comparator at RequestDetail.tsx lines
313–316: ascending timestamp, ties broken by ascending `order`. -/
def tlLE (a b : TimelineItem) : Prop :=
  a.timestamp < b.timestamp ∨ (a.timestamp = b.timestamp ∧ a.order ≤ b.order)

instance : DecidableRel tlLE := fun a b => by unfold tlLE; infer_instance

instance : IsTotal TimelineItem tlLE :=
  ⟨fun a b => by unfold tlLE; omega⟩

instance : IsTrans TimelineItem tlLE :=
  ⟨fun a b c h h' => by unfold tlLE at *; omega⟩

/-- `timelineItems` (RequestDetail.tsx lines 261–317): creation entry, then the
entries for `normalizedEvents`, then the status entry, sorted by the timeline
comparator (JS `sort` is stable; modelled by the stable `List.insertionSort`). -/
def timelineItems (req : Ticket) (resultFiles : List Attachment) (now : Int) :
    List TimelineItem :=
  List.insertionSort tlLE
    (creationItem req ::
      (mkEventItems (normalizedEvents req resultFiles now) 0 0 ++ [statusItem req]))

/-! ## Script tree (src/unnamed/part_009, `ScriptLibraryWithFolders`) -/

/-- `type` of a `ScriptTreeNode`. -/
inductive NodeKind where
  | FOLDER
  | FILE
deriving DecidableEq, Repr

/-- `ScriptTreeNode` (part_009 lines 7–17), restricted to the fields the
traversals read; a FILE node carries an empty `children` list (the TS code only
reads `children` through optional chaining). -/
inductive STNode where
  | mk (id : Nat) (name : String) (kind : NodeKind) (children : List STNode)

/-- The node's id. -/
def STNode.id : STNode → Nat
  | .mk i _ _ _ => i

/-- The node's name. -/
def STNode.name : STNode → String
  | .mk _ n _ _ => n

/-- The node's type. -/
def STNode.kind : STNode → NodeKind
  | .mk _ _ k _ => k

/-- The node's children. -/
def STNode.children : STNode → List STNode
  | .mk _ _ _ cs => cs

/-- The ids contributed by `walk` (part_009 lines 52–57) over a forest: for each
node, its id followed by the ids below it. -/
def collectDescendantsList : List STNode → List Nat
  | [] => []
  | .mk i _ _ cs :: rest => i :: (collectDescendantsList cs ++ collectDescendantsList rest)

/-- `collectDescendants` (part_009 lines 49–60): the ids of all strict
descendants of `node` (the node's own id is never added). -/
def collectDescendants (node : STNode) : List Nat :=
  collectDescendantsList node.children

/-- One entry of the flattened folder list (`{ id, name, depth }`). -/
structure FolderOption where
  id : Nat
  name : String
  depth : Nat
deriving DecidableEq, Repr

/-- `flattenFolders` (part_009 lines 36–47): depth-first listing of FOLDER nodes,
skipping (and not recursing into) any node whose id is in `omitIds`. -/
def flattenFolders : List STNode → Nat → List Nat → List FolderOption
  | [], _, _ => []
  | .mk i nm k cs :: rest, depth, omitIds =>
    if k = NodeKind.FOLDER ∧ i ∉ omitIds then
      ⟨i, nm, depth⟩ :: (flattenFolders cs (depth + 1) omitIds ++ flattenFolders rest depth omitIds)
    else
      flattenFolders rest depth omitIds

/-- `destinations` for a folder row (part_009 line 466):
`flattenFolders(tree, 0, collectDescendants(node))`. -/
def destinationsForFolder (tree : List STNode) (node : STNode) : List FolderOption :=
  flattenFolders tree 0 (collectDescendants node)

/-- `destinations` for a file row (part_009 line 466): `flattenFolders(tree)`. -/
def destinationsForFile (tree : List STNode) : List FolderOption :=
  flattenFolders tree 0 []

/-! ## HTTP error decoding
(src/services/apiClient.ts lines 5–15 and src/unnamed/part_003 lines 6–25) -/

/-- A JSON value, as produced by `res.json()`. -/
inductive JsonVal where
  | null
  | bool (b : Bool)
  | num (n : Int)
  | str (s : String)
  | arr (xs : List JsonVal)
  | obj (fields : List (String × JsonVal))

/-- An opening brace as a one-character string. -/
def lbr : String := String.mk [Char.ofNat 123]

/-- A closing brace as a one-character string. -/
def rbr : String := String.mk [Char.ofNat 125]

mutual

/-- Model of `JSON.stringify` (exact for strings that need no escape sequences,
which covers every body this development evaluates). -/
def jsStringify : JsonVal → String
  | .null => "null"
  | .bool true => "true"
  | .bool false => "false"
  | .num n => toString n
  | .str s => "\"" ++ s ++ "\""
  | .arr xs => "[" ++ jsStringifyList xs ++ "]"
  | .obj fs => lbr ++ jsStringifyFields fs ++ rbr

/-- Comma-joined serialisations of array elements. -/
def jsStringifyList : List JsonVal → String
  | [] => ""
  | [x] => jsStringify x
  | x :: y :: rest => jsStringify x ++ "," ++ jsStringifyList (y :: rest)

/-- Comma-joined serialisations of object fields. -/
def jsStringifyFields : List (String × JsonVal) → String
  | [] => ""
  | [(k, v)] => "\"" ++ k ++ "\":" ++ jsStringify v
  | (k, v) :: f :: rest =>
    "\"" ++ k ++ "\":" ++ jsStringify v ++ "," ++ jsStringifyFields (f :: rest)

end

mutual

/-- Model of JS string coercion `String(x)`, as applied by `new Error(x)` to a
non-string argument. -/
def jsToString : JsonVal → String
  | .null => "null"
  | .bool true => "true"
  | .bool false => "false"
  | .num n => toString n
  | .str s => s
  | .arr xs => jsToStringList xs
  | .obj _ => "[object Object]"

/-- JS array-to-string: elements joined with commas. -/
def jsToStringList : List JsonVal → String
  | [] => ""
  | [x] => jsToString x
  | x :: y :: rest => jsToString x ++ "," ++ jsToStringList (y :: rest)

end

/-- JS truthiness of a JSON value. -/
def truthy : JsonVal → Bool
  | .null => false
  | .bool b => b
  | .num n => n != 0
  | .str s => s != ""
  | .arr _ => true
  | .obj _ => true

/-- JS property access `data?.k` on a decoded JSON value (`none` models
`undefined`). -/
def getField : JsonVal → String → Option JsonVal
  | .obj fs, k => fs.lookup k
  | _, _ => none

/-- `(data as any)?.detail || (data as any)?.message`, guarded by `if (detail)`:
the first truthy of the two fields, if any. -/
def detailOrMessage (data : JsonVal) : Option JsonVal :=
  match getField data "detail" with
  | some v =>
    if truthy v then some v
    else
      match getField data "message" with
      | some w => if truthy w then some w else none
      | none => none
  | none =>
    match getField data "message" with
    | some w => if truthy w then some w else none
    | none => none

/-- An HTTP response as the error decoders observe it: `jsonBody` is the result
of `res.json()` (`some v` when the body parses as JSON value `v`, `none` when
parsing rejects) and `textBody` the result of `res.text()` (the raw body). -/
structure HttpResponse where
  status : Nat
  statusText : String
  jsonBody : Option JsonVal
  textBody : String

/-- The observable effect of a `buildError` call: whether the stored token was
removed, whether `window.location.reload()` was forced, and the message of the
returned `Error`. -/
structure ErrorOutcome where
  clearedToken : Bool
  reloaded : Bool
  message : String
deriving DecidableEq, Repr

/-- The shared error-body decoding (the `try`/`catch` over `res.json()`):
truthy `detail`/`message` field, else the stringified JSON body, else the raw
text, else the status text. -/
def decodeErrorBody (res : HttpResponse) : String :=
  match res.jsonBody with
  | some data =>
    match detailOrMessage data with
    | some v => jsToString v
    | none => jsStringify data
  | none => if res.textBody = "" then res.statusText else res.textBody

namespace ApiClientNamed

/-- `buildError` of src/services/apiClient.ts lines 5–15: decodes the body; no
status-specific handling, so it never touches the token or reloads. -/
def buildError (res : HttpResponse) : ErrorOutcome :=
  ⟨false, false, decodeErrorBody res⟩

end ApiClientNamed

namespace ApiClientAuthed

/-- `buildError` of src/unnamed/part_003 lines 6–25: on 401/403 it removes the
stored token (and user id), forces `window.location.reload()` and returns the
fixed message; otherwise it decodes the body as the named client does. -/
def buildError (res : HttpResponse) : ErrorOutcome :=
  if res.status = 401 ∨ res.status = 403 then
    ⟨true, true, "Session expired. Please sign in again."⟩
  else
    ⟨false, false, decodeErrorBody res⟩

end ApiClientAuthed

/-! ## AI analysis
(src/services/geminiService.ts, src/unnamed/part_000, RequestDetail.tsx lines 97–111) -/

/-- A banner as set by the detail view (`setBanner`). -/
inductive BannerTone where
  | info
  | error
  | success
deriving DecidableEq, Repr

/-- `{ text, tone }` of the detail-view banner state. -/
structure Banner where
  text : String
  tone : BannerTone
deriving DecidableEq, Repr

/-- The hard-coded fallback object of src/unnamed/part_000 lines 65–72. -/
def fallbackAnalysis : AIAnalysis :=
  ⟨5, ["Autodesk.Revit.DB", "Autodesk.Revit.UI"],
    "Error connecting to AI. Please check API Key in .env file.",
    "# AI Connection Failed\n# Please implement manually"⟩

/-- `analyzeRequestWithGemini` of src/services/geminiService.ts: it returns the
outcome of `apiClient.post(/requests/:id/analyze)` unchanged, so an HTTP
failure propagates to the caller as a rejection. -/
def analyzeRequestViaBackend (postOutcome : Except String AIAnalysis) :
    Except String AIAnalysis :=
  postOutcome

/-- `analyzeRequestWithGemini` of src/unnamed/part_000 lines 38–73:
`callOutcome` is the outcome of `ai.models.generateContent` (`Except.error` a
rejection, `Except.ok` a response whose `.text` is the optional payload) and
`parseAnalysis` models `JSON.parse` of the payload into an `AIAnalysis`
(`none` = parse throws).  Every failure path is caught by the local
`try`/`catch`, which resolves with `fallbackAnalysis` instead of rejecting. -/
def analyzeRequestWithGemini (callOutcome : Except String (Option String))
    (parseAnalysis : String → Option AIAnalysis) : Except String AIAnalysis :=
  match callOutcome with
  | .error _ => .ok fallbackAnalysis
  | .ok none => .ok fallbackAnalysis
  | .ok (some text) =>
    match parseAnalysis text with
    | some a => .ok a
    | none => .ok fallbackAnalysis

/-- `handleAnalyze` (RequestDetail.tsx lines 97–111) given the settled outcome
of the analysis call: on resolution it saves and stores
`{ ...localReq, aiAnalysis: analysis }` (banner untouched, returned as `none`);
on rejection the `catch` leaves the ticket untouched and sets the error
banner. -/
def handleAnalyze (req : Ticket) (outcome : Except String AIAnalysis) :
    Ticket × Option Banner :=
  match outcome with
  | .ok analysis => ({ req with aiAnalysis := some analysis }, none)
  | .error _ => (req, some ⟨"Analysis failed. Ensure API key is set.", BannerTone.error⟩)

/-! ## Result-file submission
(RequestDetail.tsx lines 182–215, src/services/storageService.ts,
backend contract modelled from the spec) -/

/-- A `File` sitting in the pending-upload buffer: name, MIME type and raw
bytes. -/
structure PendingFile where
  name : String
  ftype : String
  bytes : List Nat
deriving DecidableEq, Repr

/-- The base64 alphabet. -/
def base64Alphabet : List Char :=
  "ABCDEFGHIJKLMNOPQRSTUVWXYZabcdefghijklmnopqrstuvwxyz0123456789+/".toList

/-- The base64 digit for a 6-bit group. -/
def b64Char (n : Nat) : Char := base64Alphabet.getD n 'A'

/-- Standard base64 of a byte sequence (bytes reduced mod 256), with `=`
padding. -/
def base64Encode : List Nat → List Char
  | [] => []
  | [a] => [b64Char (a % 256 / 4), b64Char (a % 4 * 16), Char.ofNat 61, Char.ofNat 61]
  | [a, b] => [b64Char (a % 256 / 4), b64Char (a % 4 * 16 + b % 256 / 16),
      b64Char (b % 16 * 4), Char.ofNat 61]
  | a :: b :: c :: rest =>
    b64Char (a % 256 / 4) :: b64Char (a % 4 * 16 + b % 256 / 16) ::
      b64Char (b % 16 * 4 + c % 256 / 64) :: b64Char (c % 64) :: base64Encode rest

/-- `fileToBase64` (storageService.ts lines 21–28): `FileReader.readAsDataURL`
yields the data URI `data:<mime>;base64,<base64 of the bytes>`. -/
def fileToBase64 (f : PendingFile) : String :=
  "data:" ++ f.ftype ++ ";base64," ++ String.mk (base64Encode f.bytes)

/-- One element of the submission payload built at RequestDetail.tsx lines
190–196: `{ name, type: file.type || 'application/octet-stream', data: await fileToBase64(file) }`. -/
def encodePending (f : PendingFile) : Attachment :=
  ⟨none, f.name, if f.ftype = "" then "application/octet-stream" else f.ftype,
    fileToBase64 f⟩

/-- Modelled from the spec: the handler of `POST /requests/:id/result-files` is
backend code not contained in this repository (the frontend only calls it).
Per §4.5 — "that action base64-encodes all pending files, posts them as a batch
of result files ... Each submission batch appends exactly one `SubmissionEvent`
(`SUBMISSION` if it is the ticket's first, else `RESUBMISSION`), recording the
count of files added in that batch" — the server appends the posted batch to
`resultFiles` and appends the single audit event; `submissionCount` advances by
one (§3: it "is monotonically non-decreasing and equals or exceeds
`submissionEvents.length`"). -/
def postResultFiles (t : Ticket) (payload : List Attachment) (now evId : Int) : Ticket :=
  { t with
    resultFiles := t.resultFiles ++ payload,
    submissionEvents := t.submissionEvents ++
      [⟨evId, t.id,
        if t.submissionEvents = [] then EventType.SUBMISSION else EventType.RESUBMISSION,
        now, payload.length⟩],
    submissionCount := some (max (t.submissionCount.getD 0) t.submissionEvents.length + 1) }

/-- Modelled from the spec: the handler of `PUT /requests/:id` (`saveRequest`)
is backend code not contained in this repository.  Per §4.4 — "the server is
the authority and the client reflects whatever status it returns" — it applies
the submitted status to the stored ticket. -/
def saveRequestStatus (t : Ticket) (status : RequestStatus) : Ticket :=
  { t with status := status }

/-- `handleSubmitFiles` (RequestDetail.tsx lines 182–215): bail out on a falsy
id; on an empty buffer only set the error banner; otherwise base64-encode the
pending files, POST them as the result-file batch, PUT the ticket with status
COMPLETED, re-fetch, and set the success banner.  The returned ticket is the
refreshed server state. -/
def handleSubmitFiles (t : Ticket) (pending : List PendingFile) (now evId : Int) :
    Ticket × Option Banner :=
  if t.id = 0 then (t, none)
  else if pending = [] then
    (t, some ⟨"Add at least one file to submit or resubmit.", BannerTone.error⟩)
  else
    let payload := pending.map encodePending
    let t1 := postResultFiles t payload now evId
    let t2 := saveRequestStatus t1 RequestStatus.COMPLETED
    (t2, some ⟨"Files submitted successfully.", BannerTone.success⟩)

/-! ## Sample data used by witnesses and counterexamples -/

/-- A representative ticket used to instantiate witnesses. -/
def sampleTicket : Ticket :=
  { id := 7, title := "Auto-Tag Rooms", requesterName := "Alice Architect",
    projectName := "Tower A", description := "Tag all rooms in the active view",
    priority := Priority.HIGH, status := RequestStatus.PENDING,
    createdAt := 100, updatedAt := 100, resultFiles := [],
    aiAnalysis := none, submissionCount := none, submissionEvents := [] }

/-- A representative stored submission event. -/
def evSample : SubmissionEvent :=
  ⟨1, 7, EventType.SUBMISSION, 50, 2⟩

/-- A COMPLETED ticket whose `updatedAt` precedes its `createdAt`. -/
def negTurnTicket : Ticket :=
  { sampleTicket with status := RequestStatus.COMPLETED, createdAt := 1, updatedAt := 0 }

/-- A COMPLETED ticket that took exactly one day (86400000 ms). -/
def oneDayTicket : Ticket :=
  { sampleTicket with status := RequestStatus.COMPLETED, createdAt := 0, updatedAt := 86400000 }

/-- A ticket whose stored `submissionCount` (0) understates its one stored
submission event. -/
def zeroCountTicket : Ticket :=
  { sampleTicket with submissionCount := some 0, submissionEvents := [evSample] }

/-- A ticket with one stored submission event and no stored count. -/
def oneEventTicket : Ticket :=
  { sampleTicket with submissionEvents := [evSample] }

/-! ## C7 — updates keep `updatedAt ≥ createdAt` -/

/-- C7: for every ticket whose `createdAt` is not later than the current time,
both client-initiated update operations (`handleStatusChange`,
`handleReturnToDeveloper`) stamp `updatedAt := Date.now()`, so
`updatedAt ≥ createdAt` holds afterwards. -/
theorem updates_preserve_timestamp_order (req : Ticket) (status : RequestStatus)
    (now : Int) (h : req.createdAt ≤ now) :
    (handleStatusChange req status now).createdAt
        ≤ (handleStatusChange req status now).updatedAt
    ∧ (handleReturnToDeveloper req now).createdAt
        ≤ (handleReturnToDeveloper req now).updatedAt := by
  exact ⟨h, h⟩

/-- Witness for C7 at a concrete ticket and clock value. -/
theorem updates_preserve_timestamp_order_witness :
    (handleStatusChange sampleTicket RequestStatus.IN_PROGRESS 200).createdAt
        ≤ (handleStatusChange sampleTicket RequestStatus.IN_PROGRESS 200).updatedAt
    ∧ (handleReturnToDeveloper sampleTicket 200).createdAt
        ≤ (handleReturnToDeveloper sampleTicket 200).updatedAt :=
  updates_preserve_timestamp_order sampleTicket RequestStatus.IN_PROGRESS 200 (by decide)

/-! ## C5 — average turnaround statistic -/

/-- C5 counterexample: the claim states the statistic equals the mean of
`updatedAt − createdAt` over COMPLETED tickets for **every** list of tickets,
but `avgTurnaroundDays` clamps each difference with `Math.max(0, ·)`
(DeveloperPortal.tsx line 51).  For a COMPLETED ticket with
`createdAt = 1, updatedAt = 0` the code yields `0` while the claimed mean is
`-1/86400000 ≠ 0`. -/
theorem avg_turnaround_claim_counterexample :
    avgTurnaroundDays [negTurnTicket] = 0
    ∧ ((negTurnTicket.updatedAt - negTurnTicket.createdAt : Int) : ℚ) / 1
        / (1000 * 60 * 60 * 24) ≠ 0 := by
  constructor
  · have hc : completedForStats [negTurnTicket] = [negTurnTicket] := rfl
    have hm : max (0 : Int) (negTurnTicket.updatedAt - negTurnTicket.createdAt) = 0 := by
      decide
    rw [avgTurnaroundDays]
    simp only [hc, List.map_cons, List.map_nil, hm, List.sum_cons, List.sum_nil]
    norm_num
  · have hd : (negTurnTicket.updatedAt - negTurnTicket.createdAt : Int) = -1 := by decide
    rw [hd]
    norm_num

/-- C5 (amended): the statistic is `0` when no COMPLETED ticket exists (never a
division by zero), and otherwise equals the mean over the COMPLETED tickets of
`max 0 (updatedAt − createdAt)` expressed in days; whenever every COMPLETED
ticket satisfies `updatedAt ≥ createdAt` this coincides with the claimed plain
mean of `updatedAt − createdAt` in days. -/
theorem avg_turnaround_spec (requests : List Ticket) :
    (completedForStats requests = [] → avgTurnaroundDays requests = 0)
    ∧ (completedForStats requests ≠ [] →
        avgTurnaroundDays requests =
          ((completedForStats requests).map
              (fun r => ((max 0 (r.updatedAt - r.createdAt) : Int) : ℚ))).sum
            / ((completedForStats requests).length : ℚ) / (1000 * 60 * 60 * 24))
    ∧ ((∀ r ∈ completedForStats requests, r.createdAt ≤ r.updatedAt) →
        completedForStats requests ≠ [] →
        avgTurnaroundDays requests =
          ((completedForStats requests).map
              (fun r => ((r.updatedAt - r.createdAt : Int) : ℚ))).sum
            / ((completedForStats requests).length : ℚ) / (1000 * 60 * 60 * 24)) := by
  refine ⟨?_, ?_, ?_⟩
  · intro h
    simp [avgTurnaroundDays, h]
  · intro h
    rw [avgTurnaroundDays]
    simp only [List.length_eq_zero]
    rw [if_neg h]
  · intro hinv h
    rw [avgTurnaroundDays]
    simp only [List.length_eq_zero]
    rw [if_neg h]
    have hmap : (completedForStats requests).map
          (fun r => ((max 0 (r.updatedAt - r.createdAt) : Int) : ℚ))
        = (completedForStats requests).map
          (fun r => ((r.updatedAt - r.createdAt : Int) : ℚ)) := by
      apply List.map_congr_left
      intro r hr
      have h0 : (0 : Int) ≤ r.updatedAt - r.createdAt := by
        have := hinv r hr
        omega
      rw [max_eq_right h0]
    rw [hmap]

/-- Witness for C5: one COMPLETED ticket that took exactly one day. -/
theorem avg_turnaround_spec_witness :
    avgTurnaroundDays [oneDayTicket] = 1 := by
  have h := (avg_turnaround_spec [oneDayTicket]).2.2 ?_ ?_
  · rw [h]
    have hc : completedForStats [oneDayTicket] = [oneDayTicket] := rfl
    have hd : (oneDayTicket.updatedAt - oneDayTicket.createdAt : Int) = 86400000 := by
      decide
    simp only [hc, List.map_cons, List.map_nil, hd, List.sum_cons, List.sum_nil,
      List.length_cons, List.length_nil]
    norm_num
  · intro r hr
    have hc : completedForStats [oneDayTicket] = [oneDayTicket] := rfl
    rw [hc] at hr
    rcases List.mem_singleton.mp hr with rfl
    decide
  · decide

/-! ## C8 — derived submission count versus event-list length -/

/-- C8 counterexample: the claim asserts the displayed count is `≥`
`submissionEvents.length` for every ticket, but the dashboard card
(DeveloperPortal.tsx line 77) computes
`req.submissionCount ?? req.submissionEvents?.length ?? 0`, which returns a
stored `submissionCount` of `0` untouched even when one submission event is
present: the displayed `0` is smaller than the list length `1`. -/
theorem submission_count_claim_counterexample :
    cardSubmissionCount zeroCountTicket = 0
    ∧ zeroCountTicket.submissionEvents.length = 1 := by
  exact ⟨rfl, rfl⟩

/-- C8 (amended): the detail view's derivation
`max (submissionCount ?? 0) submissionEvents.length` always dominates the
event-list length; the dashboard card displays the stored `submissionCount`
verbatim when present (so no bound holds there) and falls back to the
event-list length only when the field is absent. -/
theorem submission_count_bound (req : Ticket) :
    req.submissionEvents.length ≤ detailSubmissionCount req
    ∧ (req.submissionCount = none →
        cardSubmissionCount req = req.submissionEvents.length)
    ∧ (∀ n, req.submissionCount = some n → cardSubmissionCount req = n) := by
  refine ⟨?_, ?_, ?_⟩
  · have hlen : (submissionEventsSorted req).length = req.submissionEvents.length :=
      (List.perm_insertionSort evLE req.submissionEvents).length_eq
    calc req.submissionEvents.length = (submissionEventsSorted req).length := hlen.symm
      _ ≤ detailSubmissionCount req := le_max_right _ _
  · intro h
    simp [cardSubmissionCount, h]
  · intro n h
    simp [cardSubmissionCount, h]

/-- Witness for C8 at a concrete ticket carrying one event and no stored
count. -/
theorem submission_count_bound_witness :
    oneEventTicket.submissionEvents.length ≤ detailSubmissionCount oneEventTicket
    ∧ cardSubmissionCount oneEventTicket = 1 := by
  have h := submission_count_bound oneEventTicket
  refine ⟨h.1, ?_⟩
  rw [h.2.1 rfl]
  decide

/-! ## C4 — failed AI analysis -/

/-- C4 counterexample: with the `analyzeRequestWithGemini` revision of
src/unnamed/part_000 (cited by the claim), a failing external AI call is
swallowed by its local `try`/`catch`, which resolves with the hard-coded
`fallbackAnalysis`; `handleAnalyze` then stores that object, so the ticket's
`aiAnalysis` field changes from `none` to `some fallbackAnalysis` and no
failure notice is surfaced (`banner = none`) — contradicting the claim that
the failure "is surfaced as a non-fatal notice" and that the stored
`aiAnalysis` "is left unchanged". -/
theorem analyze_failure_claim_counterexample :
    sampleTicket.aiAnalysis = none
    ∧ (handleAnalyze sampleTicket
        (analyzeRequestWithGemini (Except.error "network failure") (fun _ => none))).1.aiAnalysis
        = some fallbackAnalysis
    ∧ (handleAnalyze sampleTicket
        (analyzeRequestWithGemini (Except.error "network failure") (fun _ => none))).2
        = none := by
  exact ⟨rfl, rfl, rfl⟩

/-- C4 (amended): with the backend-proxied service of
src/services/geminiService.ts — which passes the HTTP failure through as a
rejection — `handleAnalyze` catches the failure, leaves the ticket (including
`aiAnalysis`) unchanged and sets only the non-fatal error banner; with the
direct-Gemini revision of src/unnamed/part_000 the failure is instead replaced
by the fallback analysis object, which is stored into `aiAnalysis` with no
notice. -/
theorem handle_analyze_failure (req : Ticket) (e : String) :
    handleAnalyze req (analyzeRequestViaBackend (Except.error e))
        = (req, some ⟨"Analysis failed. Ensure API key is set.", BannerTone.error⟩)
    ∧ (∀ parseAnalysis,
        handleAnalyze req (analyzeRequestWithGemini (Except.error e) parseAnalysis)
          = ({ req with aiAnalysis := some fallbackAnalysis }, none)) := by
  exact ⟨rfl, fun _ => rfl⟩

/-! ## C3 — HTTP error decoding and 401/403 handling -/

/-- C3 counterexample, refuting both halves of the claim as stated.
First half: the claim says every 401/403 response clears the token and forces
a reload, but `buildError` of src/services/apiClient.ts (also cited by the
claim) has no status-specific branch: a 401 response with body
`{"detail": "Not authenticated"}` is decoded like any other error and the
token survives.  Second half: the claim says a non-2xx body without
`detail`/`message` surfaces "the raw response text", but when the body parses
as JSON the code surfaces `JSON.stringify(data)` instead: for the raw body
`" true"` (valid JSON, parses to `true`) the surfaced message is `"true"`,
not the raw text `" true"`. -/
theorem build_error_claim_counterexample :
    ApiClientNamed.buildError
        ⟨401, "Unauthorized",
          some (JsonVal.obj [("detail", JsonVal.str "Not authenticated")]), "body"⟩
        = ⟨false, false, "Not authenticated"⟩
    ∧ ApiClientAuthed.buildError ⟨500, "Internal Server Error", some (JsonVal.bool true), " true"⟩
        = ⟨false, false, "true"⟩
    ∧ "true" ≠ " true" := by
  refine ⟨rfl, rfl, by decide⟩

/-- C3 (amended): in the src/unnamed/part_003 revision of the client every
401/403 response clears the stored token and forces a full reload; the
src/services/apiClient.ts revision applies no special handling to 401/403 and
never touches the token.  For every other non-2xx response both decoders agree:
the surfaced message is the truthy `detail`/`message` field of the JSON body
when present, else the stringified JSON body when the body parses as JSON,
else the raw response text when non-empty, else the HTTP status text. -/
theorem build_error_spec (res : HttpResponse) :
    ((res.status = 401 ∨ res.status = 403) →
      ApiClientAuthed.buildError res
        = ⟨true, true, "Session expired. Please sign in again."⟩)
    ∧ (¬(res.status = 401 ∨ res.status = 403) →
      ApiClientAuthed.buildError res = ApiClientNamed.buildError res)
    ∧ (ApiClientNamed.buildError res).clearedToken = false
    ∧ (ApiClientNamed.buildError res).reloaded = false
    ∧ (∀ data v, res.jsonBody = some data → detailOrMessage data = some v →
        (ApiClientNamed.buildError res).message = jsToString v)
    ∧ (∀ data, res.jsonBody = some data → detailOrMessage data = none →
        (ApiClientNamed.buildError res).message = jsStringify data)
    ∧ (res.jsonBody = none → res.textBody ≠ "" →
        (ApiClientNamed.buildError res).message = res.textBody)
    ∧ (res.jsonBody = none → res.textBody = "" →
        (ApiClientNamed.buildError res).message = res.statusText) := by
  refine ⟨?_, ?_, rfl, rfl, ?_, ?_, ?_, ?_⟩
  · intro h
    rw [ApiClientAuthed.buildError, if_pos h]
  · intro h
    rw [ApiClientAuthed.buildError, if_neg h]
    rfl
  · intro data v hjson hdm
    simp [ApiClientNamed.buildError, decodeErrorBody, hjson, hdm]
  · intro data hjson hdm
    simp [ApiClientNamed.buildError, decodeErrorBody, hjson, hdm]
  · intro hjson htext
    simp [ApiClientNamed.buildError, decodeErrorBody, hjson, htext]
  · intro hjson htext
    simp [ApiClientNamed.buildError, decodeErrorBody, hjson, htext]

/-- Witness for C3 at concrete responses: a 403 through the part_003 client,
and a JSON-less 404 through the named client. -/
theorem build_error_spec_witness :
    ApiClientAuthed.buildError ⟨403, "Forbidden", none, ""⟩
        = ⟨true, true, "Session expired. Please sign in again."⟩
    ∧ (ApiClientNamed.buildError ⟨404, "Not Found", none, ""⟩).message = "Not Found" := by
  refine ⟨(build_error_spec ⟨403, "Forbidden", none, ""⟩).1 (Or.inr rfl), ?_⟩
  exact (build_error_spec ⟨404, "Not Found", none, ""⟩).2.2.2.2.2.2.2 rfl rfl

/-! ## C2 — "move to" destinations for a script-tree folder -/

/-- A child folder of the sample script tree. -/
def folderChild : STNode := .mk 2 "Child" NodeKind.FOLDER []

/-- The root folder of the sample script tree. -/
def folderRoot : STNode := .mk 1 "Root" NodeKind.FOLDER [folderChild]

/-- A sample script tree holding `folderChild` under `folderRoot`. -/
def sampleTree : List STNode := [folderRoot]

/-- Evaluation of the destination list offered when moving `folderChild`. -/
theorem destinations_sampleTree_eval :
    destinationsForFolder sampleTree folderChild
      = [⟨1, "Root", 0⟩, ⟨2, "Child", 1⟩] := by
  simp [destinationsForFolder, collectDescendants, collectDescendantsList,
    sampleTree, folderRoot, folderChild, flattenFolders, STNode.children]

/-- C2 counterexample: the claim says the destination set contains neither the
node itself nor its descendants, but `collectDescendants` (part_009 lines
49–60) collects only strict descendants — it never adds the node's own id — and
`flattenFolders(tree, 0, collectDescendants(node))` therefore lists the node
itself.  Moving `folderChild` (id 2) of `sampleTree` offers the destinations
with ids `[1, 2]`: the moved folder itself is offered. -/
theorem move_destinations_claim_counterexample :
    (destinationsForFolder sampleTree folderChild).map FolderOption.id = [1, 2]
    ∧ folderChild.id = 2 := by
  rw [destinations_sampleTree_eval]
  exact ⟨rfl, rfl⟩

/-- Every id listed by `flattenFolders` avoids the omitted id set. -/
theorem mem_flattenFolders_notin_omit :
    ∀ (nodes : List STNode) (depth : Nat) (omitIds : List Nat),
      ∀ opt ∈ flattenFolders nodes depth omitIds, opt.id ∉ omitIds
  | [], _, _ => by
    intro opt hmem
    simp [flattenFolders] at hmem
  | .mk i nm k cs :: rest, depth, omitIds => by
    intro opt hmem
    rw [flattenFolders] at hmem
    by_cases hc : k = NodeKind.FOLDER ∧ i ∉ omitIds
    · rw [if_pos hc] at hmem
      rcases List.mem_cons.mp hmem with h | h
      · rw [h]
        exact hc.2
      · rcases List.mem_append.mp h with h' | h'
        · exact mem_flattenFolders_notin_omit cs (depth + 1) omitIds opt h'
        · exact mem_flattenFolders_notin_omit rest depth omitIds opt h'
    · rw [if_neg hc] at hmem
      exact mem_flattenFolders_notin_omit rest depth omitIds opt hmem

/-- C2 (amended): for every tree and folder node, the offered "move to"
destinations exclude every strict descendant of the node
(`destinations(node) ∩ descendants(node) = ∅`); the node itself, however, is
not excluded (see the counterexample). -/
theorem move_destinations_exclude_descendants (tree : List STNode) (node : STNode) :
    ∀ opt ∈ destinationsForFolder tree node, opt.id ∉ collectDescendants node :=
  mem_flattenFolders_notin_omit tree 0 (collectDescendants node)

/-- Witness for C2: the root folder is offered when moving `folderChild` and is
indeed no descendant of it. -/
theorem move_destinations_exclude_descendants_witness :
    (⟨1, "Root", 0⟩ : FolderOption) ∈ destinationsForFolder sampleTree folderChild
    ∧ (⟨1, "Root", 0⟩ : FolderOption).id ∉ collectDescendants folderChild := by
  have hmem : (⟨1, "Root", 0⟩ : FolderOption) ∈ destinationsForFolder sampleTree folderChild := by
    rw [destinations_sampleTree_eval]
    exact List.mem_cons_self _ _
  exact ⟨hmem, move_destinations_exclude_descendants sampleTree folderChild _ hmem⟩

/-! ## C1 — submit/resubmit result files -/

/-- A pending upload whose bytes are the two characters of a small script. -/
def pfSample : PendingFile := ⟨"tag_rooms.py", "text/x-python", [35, 32]⟩

/-- C1: for every ticket (with a server-assigned, non-falsy id) and non-empty
pending batch, the submit/resubmit action posts the batch base64-encoded as
data URIs, the refreshed ticket is COMPLETED, and exactly one `SubmissionEvent`
is appended — of type SUBMISSION iff the ticket had no submission event yet,
else RESUBMISSION — whose `addedFiles` is the batch size.  (Reason prefix
spec-modelled: the appending itself is performed by the backend handler of
`POST /requests/:id/result-files`, which is modelled from the spec in
`postResultFiles`.) -/
theorem submit_files_spec (t : Ticket) (pending : List PendingFile) (now evId : Int)
    (hid : t.id ≠ 0) (hne : pending ≠ []) :
    (handleSubmitFiles t pending now evId).1.status = RequestStatus.COMPLETED
    ∧ (handleSubmitFiles t pending now evId).1.resultFiles
        = t.resultFiles ++ pending.map encodePending
    ∧ (handleSubmitFiles t pending now evId).1.submissionEvents
        = t.submissionEvents ++
          [⟨evId, t.id,
            if t.submissionEvents = [] then EventType.SUBMISSION else EventType.RESUBMISSION,
            now, pending.length⟩]
    ∧ ((handleSubmitFiles t pending now evId).1.submissionEvents.getLast?.map
          SubmissionEvent.eventType = some EventType.SUBMISSION
        ↔ t.submissionEvents = []) := by
  rw [handleSubmitFiles, if_neg hid, if_neg hne]
  refine ⟨rfl, rfl, ?_, ?_⟩
  · simp only [postResultFiles, saveRequestStatus, List.length_map]
  · show ((t.submissionEvents ++ [_]).getLast?.map SubmissionEvent.eventType
        = some EventType.SUBMISSION ↔ _)
    rw [List.getLast?_concat]
    by_cases h : t.submissionEvents = []
    · simp [h]
    · simp [h]

/-- Witness for C1: submitting one file to the (event-free) sample ticket. -/
theorem submit_files_spec_witness :
    (handleSubmitFiles sampleTicket [pfSample] 500 9).1.status = RequestStatus.COMPLETED
    ∧ (handleSubmitFiles sampleTicket [pfSample] 500 9).1.submissionEvents
        = [⟨9, 7, EventType.SUBMISSION, 500, 1⟩]
    ∧ (handleSubmitFiles sampleTicket [pfSample] 500 9).1.resultFiles
        = [⟨none, "tag_rooms.py", "text/x-python", "data:text/x-python;base64,IyA="⟩] := by
  have h := submit_files_spec sampleTicket [pfSample] 500 9 (by decide) (by decide)
  refine ⟨h.1, ?_, ?_⟩
  · rw [h.2.2.1]
    decide
  · rw [h.2.1]
    decide

/-! ## C10 — fabricated submission events for display -/

/-- C10: when a ticket has no stored submission events but a positive
`submissionCount`, the detail view fabricates for display exactly one
SUBMISSION event at `tsBase` (which is `updatedAt`, falling back to
`createdAt`) whose `addedFiles` is the current number of result files, followed
by `submissionCount − 1` RESUBMISSION events at the strictly increasing
timestamps `tsBase + 1, tsBase + 2, …`, each with `addedFiles = 0`. -/
theorem normalized_events_fabrication (req : Ticket) (resultFiles : List Attachment)
    (now : Int) (h1 : req.submissionEvents = []) (h2 : 0 < req.submissionCount.getD 0) :
    (normalizedEvents req resultFiles now).length = req.submissionCount.getD 0
    ∧ (normalizedEvents req resultFiles now).head?
        = some ⟨-1, req.id, EventType.SUBMISSION, tsBase req now, resultFiles.length⟩
    ∧ (∀ j, j < req.submissionCount.getD 0 - 1 →
        (normalizedEvents req resultFiles now)[j + 1]?
          = some ⟨-1 - ((j : Int) + 1), req.id, EventType.RESUBMISSION,
              tsBase req now + ((j : Int) + 1), 0⟩)
    ∧ (req.updatedAt ≠ 0 → tsBase req now = req.updatedAt)
    ∧ (req.updatedAt = 0 → req.createdAt ≠ 0 → tsBase req now = req.createdAt) := by
  have hsort : submissionEventsSorted req = [] := by
    rw [submissionEventsSorted, h1]
    rfl
  have hcount : detailSubmissionCount req = req.submissionCount.getD 0 := by
    rw [detailSubmissionCount, hsort]
    simp
  have hnorm : normalizedEvents req resultFiles now = syntheticEvents req resultFiles now := by
    rw [normalizedEvents, if_pos ⟨by rw [hsort]; rfl, hcount ▸ h2⟩]
  refine ⟨?_, ?_, ?_, ?_, ?_⟩
  · rw [hnorm, syntheticEvents]
    simp only [List.length_cons, List.length_map, List.length_range, hcount]
    omega
  · rw [hnorm, syntheticEvents]
    rfl
  · intro j hj
    have hj' : j < detailSubmissionCount req - 1 := by omega
    rw [hnorm, syntheticEvents]
    simp only [List.getElem?_cons_succ, List.getElem?_map, List.getElem?_range hj']
    rfl
  · intro h
    rw [tsBase, jsOr, if_pos h]
  · intro h h'
    rw [tsBase, jsOr, if_neg (not_not_intro h), jsOr, if_pos h']

/-- A ticket with a stored count of 2 but no stored submission events. -/
def fabTicket : Ticket :=
  { sampleTicket with submissionCount := some 2, updatedAt := 200 }

/-- A representative saved result file. -/
def attSample : Attachment :=
  ⟨some 3, "out.py", "text/x-python", "data:text/x-python;base64,IyA="⟩

/-- Witness for C10 at a concrete ticket with `submissionCount = 2` and one
result file on display. -/
theorem normalized_events_fabrication_witness :
    (normalizedEvents fabTicket [attSample] 0).length = 2
    ∧ (normalizedEvents fabTicket [attSample] 0).head?
        = some ⟨-1, 7, EventType.SUBMISSION, 200, 1⟩
    ∧ (normalizedEvents fabTicket [attSample] 0)[1]?
        = some ⟨-2, 7, EventType.RESUBMISSION, 201, 0⟩ := by
  have h := normalized_events_fabrication fabTicket [attSample] 0 rfl (by decide)
  refine ⟨?_, ?_, ?_⟩
  · rw [h.1]
    decide
  · rw [h.2.1]
    decide
  · have h0 := h.2.2.1 0 (by decide)
    rw [h0]
    decide

/-! ## C9 — dashboard filtering and sorting -/

/-- C9: filtering and sorting are pure computations on the fetched list — the
result keeps exactly the tickets whose title or requester name contains the
query case-insensitively and which pass the exact-match priority/project
filters (when not `'ALL'`); it is a permutation of the filtered list sorted by
`createdAt` in the requested direction; and the sort is stable: tickets with
equal `createdAt` keep their relative order (their fibers are unchanged). -/
theorem filtered_requests_spec (search fp fproj : String) (dir : SortDir)
    (requests : List Ticket) :
    (∀ r, r ∈ filteredRequests search fp fproj dir requests ↔
        (r ∈ requests ∧ textMatches search r = true
          ∧ (fp ≠ "ALL" → priorityStr r.priority = fp)
          ∧ (fproj ≠ "ALL" → r.projectName = fproj)))
    ∧ List.Sorted (sortRel dir) (filteredRequests search fp fproj dir requests)
    ∧ List.Perm (filteredRequests search fp fproj dir requests)
        (filteredUnsorted search fp fproj requests)
    ∧ (∀ ts : Int,
        (filteredRequests search fp fproj dir requests).filter (fun r => r.createdAt == ts)
          = (filteredUnsorted search fp fproj requests).filter
              (fun r => r.createdAt == ts)) := by
  refine ⟨?_, ?_, ?_, ?_⟩
  · intro r
    rw [filteredRequests, List.mem_insertionSort]
    by_cases hfp : fp = "ALL" <;> by_cases hfproj : fproj = "ALL" <;>
      · simp [filteredUnsorted, hfp, hfproj, List.mem_filter, and_assoc] <;> tauto
  · exact List.sorted_insertionSort (sortRel dir) _
  · exact List.perm_insertionSort (sortRel dir) _
  · intro ts
    have hpw : ((filteredUnsorted search fp fproj requests).filter
          (fun r => r.createdAt == ts)).Pairwise (sortRel dir) := by
      apply List.pairwise_of_forall_mem_list
      intro a ha b hb
      have ha2 : a.createdAt = ts := by
        simpa using (List.mem_filter.mp ha).2
      have hb2 : b.createdAt = ts := by
        simpa using (List.mem_filter.mp hb).2
      cases dir <;> simp [sortRel, ha2, hb2]
    have hsub : List.Sublist
        ((filteredUnsorted search fp fproj requests).filter (fun r => r.createdAt == ts))
        (List.insertionSort (sortRel dir) (filteredUnsorted search fp fproj requests)) :=
      List.sublist_insertionSort hpw (List.filter_sublist _)
    have hidem : ((filteredUnsorted search fp fproj requests).filter
          (fun r => r.createdAt == ts)).filter (fun r => r.createdAt == ts)
        = (filteredUnsorted search fp fproj requests).filter (fun r => r.createdAt == ts) := by
      rw [List.filter_filter]
      congr 1
      funext a
      simp
    have hsub2 : List.Sublist
        ((filteredUnsorted search fp fproj requests).filter (fun r => r.createdAt == ts))
        ((List.insertionSort (sortRel dir)
            (filteredUnsorted search fp fproj requests)).filter (fun r => r.createdAt == ts)) := by
      have h1 := hsub.filter (fun r => r.createdAt == ts)
      rwa [hidem] at h1
    have hlen : ((List.insertionSort (sortRel dir)
            (filteredUnsorted search fp fproj requests)).filter
          (fun r => r.createdAt == ts)).length
        = ((filteredUnsorted search fp fproj requests).filter
          (fun r => r.createdAt == ts)).length :=
      ((List.perm_insertionSort (sortRel dir) _).filter _).length_eq
    rw [filteredRequests]
    exact (hsub2.eq_of_length hlen.symm).symm

/-- Witness for C9: the sample ticket survives a matching search with an active
priority filter. -/
theorem filtered_requests_spec_witness :
    sampleTicket ∈ filteredRequests "auto" "HIGH" "ALL" SortDir.ASC [sampleTicket] := by
  have h := (filtered_requests_spec "auto" "HIGH" "ALL" SortDir.ASC [sampleTicket]).1 sampleTicket
  apply h.mpr
  refine ⟨List.mem_cons_self _ _, by decide, fun _ => rfl, fun hc => absurd rfl hc⟩

/-! ## C6 — timeline reconstruction -/

/-- The timeline entries for a list of events carry the events' timestamps in
order. -/
theorem mkEventItems_map_timestamp (evs : List SubmissionEvent) :
    ∀ idx resubs, (mkEventItems evs idx resubs).map TimelineItem.timestamp
      = evs.map SubmissionEvent.createdAt := by
  induction evs with
  | nil => intro idx resubs; rfl
  | cons ev rest ih =>
    intro idx resubs
    rw [mkEventItems]
    by_cases hev : ev.eventType = EventType.RESUBMISSION
    · rw [if_pos hev]
      simp [ih]
    · rw [if_neg hev]
      simp [ih]

/-- The timeline entries for a list of events carry the consecutive `order`
values `idx+1, idx+2, …`. -/
theorem mkEventItems_map_order (evs : List SubmissionEvent) :
    ∀ idx resubs, (mkEventItems evs idx resubs).map TimelineItem.order
      = List.range' (idx + 1) evs.length := by
  induction evs with
  | nil => intro idx resubs; rfl
  | cons ev rest ih =>
    intro idx resubs
    rw [mkEventItems]
    by_cases hev : ev.eventType = EventType.RESUBMISSION
    · rw [if_pos hev]
      simp only [List.map_cons, ih, List.length_cons]
      rw [List.range'_succ]
    · rw [if_neg hev]
      simp only [List.map_cons, ih, List.length_cons]
      rw [List.range'_succ]

/-- C6 counterexample: the claim says that for **every** ticket the timeline
consists of the creation event, every (stored) submission event, and one
current-status event.  For `fabTicket` — no stored submission events,
`submissionCount = 2` — the view fabricates two synthetic submission entries
(RequestDetail.tsx lines 33–56), so the timeline has 4 entries while
creation + stored events + status would be only 2. -/
theorem timeline_claim_counterexample :
    fabTicket.submissionEvents = []
    ∧ (timelineItems fabTicket [attSample] 0).length = 4
    ∧ (creationItem fabTicket ::
        (mkEventItems (submissionEventsSorted fabTicket) 0 0
          ++ [statusItem fabTicket])).length = 2 := by
  refine ⟨rfl, by decide, rfl⟩

/-- C6 (amended): for every ticket for which no synthetic events are fabricated
(some submission event is stored, or `submissionCount` is 0), the timeline is a
permutation of: the creation entry, one entry per stored submission event, and
exactly one current-status entry; it is sorted by ascending timestamp with
ties broken by ascending `order`; and the `order` keys realise the semantic
tie-break — creation carries 0, the submission entries carry `1 … n` following
the chronological (occurrence) order of the events, and the status entry
carries 999, hence creation first, then submissions in occurrence order, then
the status entry last. -/
theorem timeline_order_spec (req : Ticket) (resultFiles : List Attachment) (now : Int)
    (h : req.submissionEvents ≠ [] ∨ req.submissionCount.getD 0 = 0) :
    List.Perm (timelineItems req resultFiles now)
      (creationItem req ::
        (mkEventItems (submissionEventsSorted req) 0 0 ++ [statusItem req]))
    ∧ List.Sorted tlLE (timelineItems req resultFiles now)
    ∧ List.Perm (submissionEventsSorted req) req.submissionEvents
    ∧ List.Sorted evLE (submissionEventsSorted req)
    ∧ (mkEventItems (submissionEventsSorted req) 0 0).map TimelineItem.timestamp
        = (submissionEventsSorted req).map SubmissionEvent.createdAt
    ∧ (mkEventItems (submissionEventsSorted req) 0 0).map TimelineItem.order
        = List.range' 1 (submissionEventsSorted req).length
    ∧ (creationItem req).order = 0
    ∧ (creationItem req).timestamp = req.createdAt
    ∧ (statusItem req).order = 999
    ∧ (statusItem req).timestamp = jsOr req.updatedAt req.createdAt := by
  have hlen : (submissionEventsSorted req).length = req.submissionEvents.length :=
    (List.perm_insertionSort evLE req.submissionEvents).length_eq
  have hnofab : normalizedEvents req resultFiles now = submissionEventsSorted req := by
    rw [normalizedEvents, if_neg]
    rintro ⟨hzero, hpos⟩
    rcases h with h | h
    · exact h (List.length_eq_zero.mp (hlen ▸ hzero))
    · rw [detailSubmissionCount, h, hzero] at hpos
      simp at hpos
  refine ⟨?_, ?_, ?_, ?_, ?_, ?_, rfl, rfl, ?_, ?_⟩
  · rw [timelineItems, hnofab]
    exact List.perm_insertionSort tlLE _
  · exact List.sorted_insertionSort tlLE _
  · exact List.perm_insertionSort evLE _
  · exact List.sorted_insertionSort evLE _
  · exact mkEventItems_map_timestamp _ 0 0
  · exact mkEventItems_map_order _ 0 0
  · cases hs : req.status <;> simp [statusItem, hs]
  · cases hs : req.status <;> simp [statusItem, hs]

/-- A second stored submission event, later than `evSample`. -/
def evSample2 : SubmissionEvent :=
  ⟨2, 7, EventType.RESUBMISSION, 60, 1⟩

/-- A ticket with two stored submission events, listed out of chronological
order. -/
def twoEventTicket : Ticket :=
  { sampleTicket with submissionEvents := [evSample2, evSample], submissionCount := some 2, updatedAt := 300 }

/-- Witness for C6 at a ticket with two stored events: the timeline is sorted
and the submission entries carry the tie-break orders `[1, 2]`. -/
theorem timeline_order_spec_witness :
    List.Sorted tlLE (timelineItems twoEventTicket [] 0)
    ∧ (mkEventItems (submissionEventsSorted twoEventTicket) 0 0).map TimelineItem.order
        = [1, 2] := by
  have h := timeline_order_spec twoEventTicket [] 0 (Or.inl (by decide))
  refine ⟨h.2.1, ?_⟩
  rw [h.2.2.2.2.2.1]
  decide

end AutomationHub
